import Mathlib

/-!
Verification development for the Krustacean transparent L4 (TCP/UDP) port
forwarder.  The Rust sources are shallowly embedded: pure helpers become Lean
functions, the event-loop arms become explicit state-transition functions, and
every interaction with the operating system (socket syscalls, the monotonic
clock, sd_notify, `recvmsg`) is an explicit input so that each code path is a
value the theorems can inspect.  Machine integers (`u16`, `u32`, `usize`)
are represented as `Nat`; the only place overflow could matter is the
capability bit mask, where the shift amount is reduced mod 32 exactly as the
source does (`1u32 << (x & 31u32)`).

Each definition's doc comment names the Rust item and source location it
embeds (paths relative to the repository's `src/` directory).
-/

namespace Krustacean

/-- IPv4 address as four octets (`std::net::Ipv4Addr`). -/
structure Ipv4 where
  o1 : Nat
  o2 : Nat
  o3 : Nat
  o4 : Nat
deriving DecidableEq

/-- Model of `std::net::SocketAddrV4`: an IPv4 address and a 16-bit port. -/
structure SockAddrV4 where
  ip : Ipv4
  port : Nat
deriving DecidableEq

/-- Model of `LISTEN_IP = 127.0.0.2` (handlers/helpers.rs line 72, handlers/constants.rs line 13). -/
def LISTEN_IP : Ipv4 := ⟨127, 0, 0, 2⟩

/-- Model of `CONN_BACKLOG = 100` (handlers/helpers.rs line 73): TCP listen backlog and
UDP relay-task semaphore size. -/
def CONN_BACKLOG : Nat := 100

/-- Model of `DRAIN_DURATION = 5 s` (handlers/helpers.rs line 20): bound on the wait for
outstanding relay tasks after the forwarder loop exits.  Time is counted in
whole seconds throughout this development. -/
def DRAIN_DURATION : Nat := 5

/-- Model of `CONN_TIMEOUT = 2 s` (handlers/forwarders.rs line 24). -/
def CONN_TIMEOUT : Nat := 2

/-- Model of `BUFFER_SIZE = 4096` (handlers/forwarders.rs line 25). -/
def BUFFER_SIZE : Nat := 4096

/-- Option and bind state of one `socket2::Socket`, tracking exactly the
attributes the helper functions in handlers/helpers.rs touch.  A freshly
created socket (`Socket::new`) has every option off and no bound address. -/
structure SocketState where
  reuseAddress : Bool
  reusePort : Bool
  ipTransparent : Bool
  recvOrigDstAddr : Bool
  nonblocking : Bool
  boundTo : Option SockAddrV4
deriving DecidableEq

/-- Model of `Socket::new(Domain::IPV4, …)`: fresh socket, no options set, unbound. -/
def Socket.newSock : SocketState :=
  ⟨false, false, false, false, false, none⟩

/-- Model of `Socket::set_reuse_address`. -/
def SocketState.set_reuse_address (s : SocketState) (b : Bool) : SocketState :=
  { s with reuseAddress := b }

/-- Model of `Socket::set_reuse_port`. -/
def SocketState.set_reuse_port (s : SocketState) (b : Bool) : SocketState :=
  { s with reusePort := b }

/-- Model of `Socket::set_ip_transparent_v4`. -/
def SocketState.set_ip_transparent_v4 (s : SocketState) (b : Bool) : SocketState :=
  { s with ipTransparent := b }

/-- Model of `ExtendedSocket::set_recv_orig_dst_addr` (handlers/helpers.rs lines 97–115):
sets `IP_RECVORIGDSTADDR` through `setsockopt`. -/
def SocketState.set_recv_orig_dst_addr (s : SocketState) (b : Bool) : SocketState :=
  { s with recvOrigDstAddr := b }

/-- Model of `Socket::set_nonblocking`. -/
def SocketState.set_nonblocking (s : SocketState) (b : Bool) : SocketState :=
  { s with nonblocking := b }

/-- Model of `Socket::bind`. -/
def SocketState.bindTo (s : SocketState) (a : SockAddrV4) : SocketState :=
  { s with boundTo := some a }

/-- Model of `create_udp_socket_fd(port)` (handlers/helpers.rs lines 75–82), success
path: create a UDP socket, set `IP_TRANSPARENT`, set `IP_RECVORIGDSTADDR`, set
non-blocking, and bind to `LISTEN_IP:port`.  No other option is touched.  Any
syscall failure propagates out with `?` and produces no socket at all, so the
returned state describes every socket this function can hand back. -/
def create_udp_socket_fd (port : Nat) : SocketState :=
  (((Socket.newSock.set_ip_transparent_v4 true).set_recv_orig_dst_addr
      true).set_nonblocking true).bindTo ⟨LISTEN_IP, port⟩

/-- State of a TCP listener: the underlying socket plus the listen backlog. -/
structure ListenerState where
  sock : SocketState
  backlog : Nat
deriving DecidableEq

/-- Model of `create_tcp_listener(port)` (handlers/helpers.rs lines 84–91), success
path: create a TCP socket, set `IP_TRANSPARENT`, set non-blocking, bind to
`LISTEN_IP:port`, and listen with backlog `CONN_BACKLOG`. -/
def create_tcp_listener (port : Nat) : ListenerState :=
  ⟨((Socket.newSock.set_ip_transparent_v4 true).set_nonblocking true).bindTo
      ⟨LISTEN_IP, port⟩,
    CONN_BACKLOG⟩

/-! ### The `recvmsg` helper (handlers/helpers.rs lines 23–70) -/

/-- A control message as surfaced by `nix`'s `cmsgs()` iterator: either the
`IP_RECVORIGDSTADDR` ancillary `sockaddr_in` or anything else. -/
inductive ControlMessage where
  | ipv4OrigDstAddr (addr : SockAddrV4)
  | otherCmsg
deriving DecidableEq

/-- One successfully received message as returned by `recvmsg`: the optional
source address, the control-message iterator (`Err` when the allocated cmsg
space was too small, carrying the errno), and the payload byte count. -/
structure RecvMsg where
  address : Option SockAddrV4
  cmsgs : Except Nat (List ControlMessage)
  bytes : Nat

/-- Model of `EWOULDBLOCK`/`EAGAIN` errno on Linux. -/
def EWOULDBLOCK : Nat := 11

/-- The error logs `recvfrom_cmsg` can emit, one constructor per `error!`
call site in handlers/helpers.rs lines 32, 44, 49 and 64. -/
inductive HelperLog where
  | missingSourceAddress
  | couldNotFindOrigDst
  | cmsgSpaceTooSmall (errno : Nat)
  | recvmsgFailed (errno : Nat)
deriving DecidableEq

/-- The `find_map` over the control messages (handlers/helpers.rs lines 38–41):
the first `Ipv4OrigDstAddr` control message, if any. -/
def findOrigDst (l : List ControlMessage) : Option SockAddrV4 :=
  l.findSome? fun c =>
    match c with
    | .ipv4OrigDstAddr addr => some addr
    | .otherCmsg => none

/-- Model of `recvfrom_cmsg` (handlers/helpers.rs lines 23–70).  The argument is the
result of the underlying `recvmsg` call.  Returns the value the Rust function
returns together with the error logs it emits, in order: on a received
message, the source address is taken from `msg.address` (`None` is logged and
poisons the result), the original destination is the first
`Ipv4OrigDstAddr` control message (an `Err` from `cmsgs()` — cmsg space too
small — or an absent control message is logged and poisons the result); only
when both are present is `Some (src, bytes, orig_dst)` returned.  A `recvmsg`
error returns `None`, logging unless the errno is `EWOULDBLOCK`. -/
def recvfrom_cmsg (res : Except Nat RecvMsg) :
    Option (SockAddrV4 × Nat × SockAddrV4) × List HelperLog :=
  match res with
  | .ok msg =>
    let src : Option SockAddrV4 × List HelperLog :=
      match msg.address with
      | some a => (some a, [])
      | none => (none, [.missingSourceAddress])
    let orig : Option SockAddrV4 × List HelperLog :=
      match msg.cmsgs with
      | .ok cmsgs =>
        match findOrigDst cmsgs with
        | some o => (some o, [])
        | none => (none, [.couldNotFindOrigDst])
      | .error e => (none, [.cmsgSpaceTooSmall e])
    match src.1, orig.1 with
    | some s, some o => (some (s, msg.bytes, o), src.2 ++ orig.2)
    | some _, none => (none, src.2 ++ orig.2)
    | none, _ => (none, src.2 ++ orig.2)
  | .error e => (none, bif e != EWOULDBLOCK then [.recvmsgFailed e] else [])

/-- Whether the control-message side condition of the helper holds: the
`cmsgs()` iterator succeeded (the allocated space was large enough) and it
yields an `Ipv4OrigDstAddr` message. -/
def cmsgsHaveOrigDst (c : Except Nat (List ControlMessage)) : Bool :=
  match c with
  | .ok l => (findOrigDst l).isSome
  | .error _ => false

/-- Concrete received message whose source address is present but unspecified
(`0.0.0.0:40000`) and whose control messages carry a valid original
destination `127.0.0.2:53`, with a 7-byte payload. -/
def c4msg : RecvMsg :=
  ⟨some ⟨⟨0, 0, 0, 0⟩, 40000⟩,
    .ok [.ipv4OrigDstAddr ⟨⟨127, 0, 0, 2⟩, 53⟩], 7⟩

/-! ### The drain epilogue shared by both forwarders
(handlers/forwarders.rs lines 245–260 and 429–444) -/

/-- Result of polling a future once. -/
inductive Poll (α : Type) where
  | ready (a : α)
  | pending

/-- Rust `bool::then(f)`: when the receiver is `true` the closure is called and
its value wrapped in `Some`; the closure's value is NOT otherwise used.  With
an async closure the value is a future, which `then` merely returns. -/
def boolThen {α : Type} (b : Bool) (f : Unit → α) : Option α :=
  bif b then some (f ()) else none

/-- The future produced by the inner async closure
`async || while tasks.join_next().await.is_some() {}`: given the number of
seconds each outstanding task still needs, it is ready at instant `t` iff
every outstanding task has finished by `t`. -/
def joinAllFuture (tasks : List Nat) : Nat → Poll Unit :=
  fun t => bif tasks.all fun d => decide (d ≤ t) then .ready () else .pending

/-- The `drain` async block (handlers/forwarders.rs lines 251–253 and 435–437):
its body is the plain expression
`(!tasks.is_empty()).then(async || while tasks.join_next().await.is_some() {})`,
which contains no `await`; an async block with no await point completes at its
very first poll, so this future is ready at every instant, and its value is
the option holding the — unawaited — inner join-loop future. -/
def drainBlock (tasks : List Nat) : Nat → Poll (Option (Nat → Poll Unit)) :=
  fun _ => .ready (boolThen (!tasks.isEmpty) fun _ => joinAllFuture tasks)

/-- Model of `tokio::time::timeout(dur, fut)`, polled at whole-second instants starting
from the moment the loop exits: completes with `some (value, t)` at the first
instant `t ≤ dur` at which `fut` is ready, and with `none` (the timeout error)
when the deadline passes first.  `fuel` counts the instants still inside the
deadline. -/
def timeoutRunFrom {α : Type} (fut : Nat → Poll α) (t : Nat) : Nat → Option (α × Nat)
  | 0 =>
    match fut t with
    | .ready a => some (a, t)
    | .pending => none
  | fuel + 1 =>
    match fut t with
    | .ready a => some (a, t)
    | .pending => timeoutRunFrom fut (t + 1) fuel

/-- Model of `tokio::time::timeout(dur, fut)` from instant 0. -/
def timeoutRun {α : Type} (dur : Nat) (fut : Nat → Poll α) : Option (α × Nat) :=
  timeoutRunFrom fut 0 dur

/-- Observable outcome of the epilogue after a forwarder loop exits. -/
structure DrainOutcome where
  /-- Whether `timeout(DRAIN_DURATION, drain)` returned `Ok` (did not hit the deadline). -/
  finishedInTime : Bool
  /-- the `warn!("Forced exit …: tasks didn't complete in time")` fired. -/
  warnedForcedExit : Bool
  /-- instant (seconds after loop exit) at which the epilogue returned, when it
  did not hit the deadline. -/
  elapsed : Option Nat
  /-- seconds of work each still-outstanding relay task needs after the
  `abort_all` step, i.e. the tasks the drain was supposed to wait for. -/
  tasksAfterAbort : List Nat
deriving DecidableEq

/-- Epilogue after the main loop exits, identical in `udp_forwarder`
(handlers/forwarders.rs lines 245–260) and `tcp_forwarder` (lines 429–444):
if `force_kill` (set on `KILL`/`PANICKED`) then `tasks.abort_all()`; then
await `timeout(DRAIN_DURATION, drain)` where `drain` is the async block
modelled by `drainBlock`; the forced-exit warning fires exactly when the
timeout errs.  `tasks` gives the seconds of work each outstanding relay task
still needs when the loop exits. -/
def drainEpilogue (forceKill : Bool) (tasks : List Nat) : DrainOutcome :=
  let tasks2 := bif forceKill then [] else tasks
  match timeoutRun DRAIN_DURATION (drainBlock tasks2) with
  | some (_, t) => ⟨true, false, some t, tasks2⟩
  | none => ⟨false, true, none, tasks2⟩

/-! ### UDP forwarder admission loop (handlers/forwarders.rs lines 50–243) -/

/-- Admission state of the UDP forwarder loop: permits still available in the
backlog semaphore (`Semaphore::new(CONN_BACKLOG)`, forwarders.rs line 50) and
relay tasks currently in flight, each holding exactly one owned permit. -/
structure LoopState where
  permits : Nat
  inFlight : Nat
deriving DecidableEq

/-- Loop state right after startup: all `CONN_BACKLOG` permits free, no tasks. -/
def initLoopState : LoopState := ⟨CONN_BACKLOG, 0⟩

/-- Logs the admission path can emit (forwarders.rs lines 228–235).  The
`Closed` arm is unreachable in the program — `Semaphore::close` is never
called — so the only acquisition failure is `NoPermits`. -/
inductive LoopLog where
  | busyDroppingPackets
  | semaphoreClosed
deriving DecidableEq

/-- The readable arm of the UDP forwarder loop after `recvfrom_cmsg_async`
returns (forwarders.rs lines 122–236): when the helper returned `None` the
packet was already dropped and nothing happens; when it returned `Some`, the
loop calls `semaphore.try_acquire_owned()` (non-blocking): with no permit
free the datagram is dropped with the busy warning (never queued), otherwise a
relay task is spawned holding the acquired permit.  Returns the new state, the
emitted logs, and whether a relay task was spawned. -/
def udpRecvStep (s : LoopState) (recvRes : Option (SockAddrV4 × Nat × SockAddrV4)) :
    LoopState × List LoopLog × Bool :=
  match recvRes with
  | none => (s, [], false)
  | some _ =>
    if s.permits = 0 then
      (s, [.busyDroppingPackets], false)
    else
      ({ permits := s.permits - 1, inFlight := s.inFlight + 1 }, [], true)

/-- A relay task completing: its `OwnedSemaphorePermit` (`let _permit = p`,
forwarders.rs line 129) is dropped at scope exit, releasing one permit back to
the semaphore. -/
def udpTaskDone (s : LoopState) : LoopState :=
  if s.inFlight = 0 then s
  else { permits := s.permits + 1, inFlight := s.inFlight - 1 }

/-- The two admission-relevant things that can happen to the loop state: a
receive-arm wakeup with the helper's result, or a relay task completing. -/
inductive LoopEvent where
  | recv (r : Option (SockAddrV4 × Nat × SockAddrV4))
  | taskDone

/-- One admission step of the loop. -/
def udpLoopStep (s : LoopState) (e : LoopEvent) : LoopState :=
  match e with
  | .recv r => (udpRecvStep s r).1
  | .taskDone => udpTaskDone s

/-- The loop state after a sequence of events, starting from startup. -/
def udpLoopRun (evs : List LoopEvent) : LoopState :=
  evs.foldl udpLoopStep initLoopState

/-- A sample valid receive-helper result used in concrete instantiations. -/
def sampleRecv : SockAddrV4 × Nat × SockAddrV4 :=
  (⟨⟨127, 0, 0, 1⟩, 40000⟩, 7, ⟨⟨127, 0, 0, 2⟩, 53⟩)

/-- One hundred valid datagram arrivals, none of whose relay tasks has
completed: exactly exhausts the semaphore. -/
def evs100 : List LoopEvent :=
  List.replicate 100 (.recv (some sampleRecv))

/-! ### Signal handler (handlers/signal_handler.rs) and its data model
(utils/structs.rs) -/

/-- One configuration-file entry (utils/structs.rs `Forwarders`, lines 67–72). -/
structure FileEntry where
  upstream_ip : Ipv4
  upstream_port : Nat
  orig_port : Nat
deriving DecidableEq

/-- Parsed configuration file (utils/structs.rs `Configs`, lines 59–64).  The
`udp`/`tcp` `HashSet`s are carried as lists of their (distinct) elements. -/
structure Configs where
  port : Nat
  udp : List FileEntry
  tcp : List FileEntry
deriving DecidableEq

/-- A forwarder map (utils/structs.rs `UdpMap`/`TcpMap`): original destination
port to upstream `(IPv4, port)`.  Represented as an association list in which
an earlier entry shadows later ones, mirroring `HashMap` insertion where the
insert for a key replaces its previous value. -/
abbrev FwdMap := List (Nat × (Ipv4 × Nat))

/-- Model of `ForwarderMap::get` (utils/structs.rs lines 101–121): pure lookup. -/
def mapLookup (m : FwdMap) (k : Nat) : Option (Ipv4 × Nat) :=
  (m.find? fun p => p.1 == k).map Prod.snd

/-- Building a map from the entry set, as in `RuntimeConfigs::from`
(utils/structs.rs lines 81–99): each entry inserts
`orig_port → (upstream_ip, upstream_port)`; a later insert for the same key
overwrites, which prepending realises under head-shadowed lookup. -/
def mapOfEntries (es : List FileEntry) : FwdMap :=
  es.foldl (fun m e => (e.orig_port, (e.upstream_ip, e.upstream_port)) :: m) []

/-- Model of `HashMap` equality (the derived `PartialEq` used through
`RuntimeConfigs`): both maps give the same lookup result on every key of
either. -/
def mapBeq (m1 m2 : FwdMap) : Bool :=
  (m1.map Prod.fst ++ m2.map Prod.fst).all fun k =>
    decide (mapLookup m1 k = mapLookup m2 k)

/-- Published runtime configuration (utils/structs.rs `RuntimeConfigs`, lines
74–79). -/
structure RuntimeConfigs where
  port : Nat
  udp_map : FwdMap
  tcp_map : FwdMap
deriving DecidableEq

/-- Model of `RuntimeConfigs::from(&Configs)` (utils/structs.rs lines 81–99). -/
def RuntimeConfigs.ofConfigs (c : Configs) : RuntimeConfigs :=
  ⟨c.port, mapOfEntries c.udp, mapOfEntries c.tcp⟩

/-- Structural equality of snapshots, the `**old_cfg != new_config` comparison
(signal_handler.rs line 142): derived `PartialEq` compares the port and the
two maps (maps by key-value content). -/
def RuntimeConfigs.beq (a b : RuntimeConfigs) : Bool :=
  a.port == b.port && mapBeq a.udp_map b.udp_map && mapBeq a.tcp_map b.tcp_map

/-- Model of `Actions` (utils/structs.rs lines 123–131): the control actions broadcast
on the watch channel. -/
inductive Actions where
  | INIT
  | RELOAD (port_changed : Bool)
  | KILL
  | SHUTDOWN
  | STOP (label : String)
  | PANICKED
deriving DecidableEq

/-- Externally visible effects of the SIGHUP arm, in program order, one
constructor per call site in signal_handler.rs lines 121–169. -/
inductive SigEvent where
  | notifyReloading (monotonicUsec : Nat)
  | warnNotifyFailed
  | readConfigFile
  | storeConfig (c : RuntimeConfigs)
  | publish (a : Actions)
  | logInfoUnchanged
  | logReadError
  | logClockError
  | notifyReady
  | notifyStatus (port : Nat)
deriving DecidableEq

/-- Whether a loop arm falls through to another iteration or breaks out. -/
inductive LoopOutcome where
  | continueLoop
  | breakLoop
deriving DecidableEq

/-- Warning segment after a best-effort `sd_notify` call: nothing when the
call succeeded, one warning when it failed. -/
def warnSeg (ok : Bool) : List SigEvent :=
  bif ok then [] else [.warnNotifyFailed]

/-- The SIGHUP arm of `signal_handler` (signal_handler.rs lines 121–169).
Inputs stand for the environment: `clockRes` is `NotifyState::monotonic_usec_now()`
(`none` = failure), the three Booleans are whether each best-effort `sd_notify`
call succeeds (RELOADING+usec, READY, STATUS), `readRes` is the result of
`read_config`, and `cur` is the currently published snapshot
(`current_config.load()`).  Returns the snapshot slot content after the arm,
the emitted event trace in program order, and the loop outcome.  In the code:
a clock failure aborts the reload with an error log before anything else; the
newly parsed snapshot is compared against the current one, and only when they
differ is the new snapshot stored (`current_config.store`) and then —
strictly afterwards — `RELOAD(port_changed)` published, with
`port_changed = (old.port != new.port)`; a read or parse failure is logged and
the snapshot retained; the arm always ends in `continue`. -/
def handleSighup (clockRes : Option Nat) (nReloadingOk nReadyOk nStatusOk : Bool)
    (readRes : Except Unit Configs) (cur : RuntimeConfigs) :
    RuntimeConfigs × List SigEvent × LoopOutcome :=
  match clockRes with
  | none => (cur, [.logClockError], .continueLoop)
  | some m =>
    let evs1 : List SigEvent := .notifyReloading m :: warnSeg nReloadingOk
    let step2 : RuntimeConfigs × List SigEvent :=
      match readRes with
      | .ok fc =>
        let newConfig := RuntimeConfigs.ofConfigs fc
        let needs_update := !(RuntimeConfigs.beq cur newConfig)
        let port_changed := cur.port != newConfig.port
        if needs_update then
          (newConfig,
            [.readConfigFile, .storeConfig newConfig, .publish (.RELOAD port_changed)])
        else
          (cur, [.readConfigFile, .logInfoUnchanged])
      | .error _ => (cur, [.readConfigFile, .logReadError])
    (step2.1,
      evs1 ++ step2.2 ++ (.notifyReady :: warnSeg nReadyOk)
        ++ (.notifyStatus step2.1.port :: warnSeg nStatusOk),
      .continueLoop)

/-- The actions published to the watch channel within a trace. -/
def sigPublishes (evs : List SigEvent) : List Actions :=
  evs.filterMap fun e =>
    match e with
    | .publish a => some a
    | _ => none

/-- A sample parsed configuration file: listen port 10001, one UDP mapping
`53 → 127.0.0.3:53`, no TCP mappings. -/
def cfgSample : Configs :=
  ⟨10001, [⟨⟨127, 0, 0, 3⟩, 53, 53⟩], []⟩

/-- A sample currently published snapshot with listen port 10000, differing
from `RuntimeConfigs.ofConfigs cfgSample` in port and map. -/
def curSample : RuntimeConfigs :=
  ⟨10000, [], []⟩

/-! ### Supervisor (main.rs lines 152–158) -/

/-- Result of awaiting one worker's join handle in `main`'s
`tasks.join_next()` loop: clean exit with the worker's label, worker error
with the label, or a join (panic) error. -/
inductive WorkerRes where
  | okRes (label : String)
  | errRes (label : String)
  | joinErr
deriving DecidableEq

/-- Effects of the supervisor's join loop, one per arm of the match in
main.rs lines 153–157, plus the publish effect the claim expects (which no
arm performs — `main` holds no channel sender at all). -/
inductive SupEvent where
  | logCleanExit (label : String)
  | logWorkerError (label : String)
  | logJoinError
  | publish (a : Actions)
deriving DecidableEq

/-- The supervisor join loop (main.rs lines 152–158): every completed worker
result is only logged — clean exits at info level, worker errors and join
errors at error level — and nothing else happens. -/
def supervisorJoinLoop (results : List WorkerRes) : List SupEvent :=
  results.map fun r =>
    match r with
    | .okRes l => .logCleanExit l
    | .errRes l => .logWorkerError l
    | .joinErr => .logJoinError

/-- The actions the supervisor publishes within a trace. -/
def supPublishes (evs : List SupEvent) : List Actions :=
  evs.filterMap fun e =>
    match e with
    | .publish a => some a
    | _ => none

/-! ### Forwarder RELOAD handling (handlers/forwarders.rs lines 62–79 and
296–313) -/

/-- The runtime configuration carried by the forwarder revision's
`Actions::RELOAD(c)` / `Actions::INIT(c)` (forwarders.rs lines 32–34, 62–79,
268–270, 296–313): the listen port `c.port` and the two maps returned by
`c.udp_config()` / `c.tcp_config()`. -/
structure FwdConfig where
  port : Nat
  udpConfig : FwdMap
  tcpConfig : FwdMap
deriving DecidableEq

/-- Loop-carried state of the UDP forwarder relevant to RELOAD: the contents
of the shared `Arc<RwLock<…>>` map, the cached listen port, and the identity
of the current `AsyncFd` listen socket. -/
structure UdpFwdState where
  udpMapShared : FwdMap
  port : Nat
  udpFd : Nat
deriving DecidableEq

/-- Loop-carried state of the TCP forwarder relevant to RELOAD. -/
structure TcpFwdState where
  tcpMapShared : FwdMap
  port : Nat
  listener : Nat
deriving DecidableEq

/-- Effects of a forwarder's RELOAD arm: the info log, an attempt to create a
listen socket on a port, and the error log when that attempt fails. -/
inductive FwdEvent where
  | logReloadReceived
  | createListenSocket (port : Nat)
  | logCreateError
deriving DecidableEq

/-- The `Actions::RELOAD(c)` arm of `udp_forwarder` (forwarders.rs lines
62–80): replace the shared map with `c.udp_config()` under the write lock;
then, only if `c.port != port`, call `create_udp_socket_fd(c.port)` — on
success install the new fd and port, on failure log the error and `continue`
with the old fd and old port.  The arm never breaks the loop and never
returns an error. -/
def udpHandleReload (create : Nat → Except Unit Nat) (c : FwdConfig)
    (st : UdpFwdState) : UdpFwdState × List FwdEvent × LoopOutcome :=
  let st1 := { st with udpMapShared := c.udpConfig }
  if c.port ≠ st.port then
    match create c.port with
    | .ok f =>
      ({ st1 with udpFd := f, port := c.port },
        [.logReloadReceived, .createListenSocket c.port], .continueLoop)
    | .error _ =>
      (st1, [.logReloadReceived, .createListenSocket c.port, .logCreateError],
        .continueLoop)
  else
    (st1, [.logReloadReceived], .continueLoop)

/-- The `Actions::RELOAD(c)` arm of `tcp_forwarder` (forwarders.rs lines
296–314), identical to the UDP arm with `c.tcp_config()` and
`create_tcp_listener`. -/
def tcpHandleReload (create : Nat → Except Unit Nat) (c : FwdConfig)
    (st : TcpFwdState) : TcpFwdState × List FwdEvent × LoopOutcome :=
  let st1 := { st with tcpMapShared := c.tcpConfig }
  if c.port ≠ st.port then
    match create c.port with
    | .ok l =>
      ({ st1 with listener := l, port := c.port },
        [.logReloadReceived, .createListenSocket c.port], .continueLoop)
    | .error _ =>
      (st1, [.logReloadReceived, .createListenSocket c.port, .logCreateError],
        .continueLoop)
  else
    (st1, [.logReloadReceived], .continueLoop)

/-! ### Relay tasks (handlers/forwarders.rs lines 128–226 and 348–416) -/

/-- Environment responses consumed by one UDP relay task, in the order the
task performs the corresponding operations (forwarders.rs lines 128–226).
`recv_from` is wrapped in `timeout(CONN_TIMEOUT, …)`, so its result is `none`
on deadline and otherwise the inner receive result. -/
structure UdpRelayEnv where
  bindUnspecified : Except Unit Unit
  send_to_upstream : Except Unit Unit
  recv_from_upstream : Option (Except Unit Nat)
  replySocketNew : Except Unit Unit
  set_reuse_address : Except Unit Unit
  set_reuse_port : Except Unit Unit
  set_ip_transparent_v4 : Except Unit Unit
  set_nonblocking : Except Unit Unit
  bindReply : Except Unit Unit
  from_std : Except Unit Unit
  send_to_client : Except Unit Unit

/-- Environment responses consumed by one TCP relay task (forwarders.rs lines
348–416).  `origDst` is `SockRef::original_dst_v4().map(as_socket_ipv4)`:
a `Result` holding an `Option`.  `connect` and the upstream read are wrapped
in `timeout(CONN_TIMEOUT, …)` (`none` = deadline). -/
structure TcpRelayEnv where
  origDst : Except Unit (Option SockAddrV4)
  connect_upstream : Option (Except Unit Unit)
  read_client : Except Unit Nat
  write_all_upstream : Except Unit Unit
  read_upstream : Option (Except Unit Nat)
  write_all_client : Except Unit Unit

/-- Observable effects of a relay task, one constructor per operation or log
call site; constructors are shared between the UDP task (forwarders.rs lines
128–226) and the TCP task (lines 348–416). -/
inductive RelayEv where
  | logIntercept
  | warnNoUdpMapping (port : Nat)
  | warnNoTcpMapping (port : Nat)
  | bindUpstreamSocket
  | errBindUpstream
  | sendUpstream
  | errSendUpstream
  | recvUpstreamOk (len : Nat)
  | errRecvUpstream
  | timeoutRecvUpstream
  | newReplySocket
  | errNewReplySocket
  | errSetSockOpt
  | bindReplySocket (addr : SockAddrV4)
  | errBindReply
  | errReplyFromStd
  | sendReplyToClient
  | errSendReplyToClient
  | errOrigDst
  | connectUpstream
  | errConnect
  | timeoutConnect
  | readClientOk (len : Nat)
  | errReadClient
  | writeUpstream
  | errWriteUpstream
  | readUpstreamOk (len : Nat)
  | errReadUpstream
  | timeoutReadUpstream
  | writeClient
  | errWriteClient
deriving DecidableEq

/-- The UDP relay task body (forwarders.rs lines 128–226), as the ordered
trace of its effects.  It first logs the intercept, then looks up
`orig_dst.port()` in the UDP map; when the port is unmapped it logs the
"No upstream mapping" warning and returns — before any socket is created or
anything is sent.  When mapped: bind an ephemeral socket to `0.0.0.0:0`,
`send_to` the upstream, await the reply under `CONN_TIMEOUT`, build the
transparent reply socket (reuse address, reuse port, `IP_TRANSPARENT`,
non-blocking), bind it to the original destination, and `send_to` the client;
every failure logs and returns. -/
def udp_relay (udpMap : FwdMap) (orig_dst : SockAddrV4) (env : UdpRelayEnv) :
    List RelayEv :=
  .logIntercept ::
    match mapLookup udpMap orig_dst.port with
    | none => [.warnNoUdpMapping orig_dst.port]
    | some _proxy =>
      match env.bindUnspecified with
      | .error _ => [.errBindUpstream]
      | .ok _ =>
        .bindUpstreamSocket ::
          match env.send_to_upstream with
          | .error _ => [.errSendUpstream]
          | .ok _ =>
            .sendUpstream ::
              match env.recv_from_upstream with
              | none => [.timeoutRecvUpstream]
              | some (.error _) => [.errRecvUpstream]
              | some (.ok reply_len) =>
                .recvUpstreamOk reply_len ::
                  match env.replySocketNew with
                  | .error _ => [.errNewReplySocket]
                  | .ok _ =>
                    .newReplySocket ::
                      match env.set_reuse_address, env.set_reuse_port,
                          env.set_ip_transparent_v4, env.set_nonblocking with
                      | .error _, _, _, _ => [.errSetSockOpt]
                      | .ok _, .error _, _, _ => [.errSetSockOpt]
                      | .ok _, .ok _, .error _, _ => [.errSetSockOpt]
                      | .ok _, .ok _, .ok _, .error _ => [.errSetSockOpt]
                      | .ok _, .ok _, .ok _, .ok _ =>
                        match env.bindReply with
                        | .error _ => [.errBindReply]
                        | .ok _ =>
                          .bindReplySocket ⟨orig_dst.ip, orig_dst.port⟩ ::
                            match env.from_std with
                            | .error _ => [.errReplyFromStd]
                            | .ok _ =>
                              match env.send_to_client with
                              | .ok _ => [.sendReplyToClient]
                              | .error _ => [.errSendReplyToClient]

/-- The TCP relay task body (forwarders.rs lines 348–416), as the ordered
trace of its effects.  The original destination is retrieved first; anything
other than `Ok(Some(_))` logs an error and returns.  Then the task logs the
intercept and resolves the port in the TCP map; when unmapped it logs the
"No upstream mapping" warning and returns — before any upstream connection is
attempted or anything is written.  When mapped: `connect` under
`CONN_TIMEOUT`, single `read` from the client, `write_all` upstream, single
`read` of the reply under `CONN_TIMEOUT`, `write_all` back to the client;
every failure logs and returns. -/
def tcp_relay (tcpMap : FwdMap) (env : TcpRelayEnv) : List RelayEv :=
  match env.origDst with
  | .ok (some orig) =>
    .logIntercept ::
      match mapLookup tcpMap orig.port with
      | none => [.warnNoTcpMapping orig.port]
      | some _proxy =>
        match env.connect_upstream with
        | none => [.timeoutConnect]
        | some (.error _) => [.errConnect]
        | some (.ok _) =>
          .connectUpstream ::
            match env.read_client with
            | .error _ => [.errReadClient]
            | .ok len =>
              .readClientOk len ::
                match env.write_all_upstream with
                | .error _ => [.errWriteUpstream]
                | .ok _ =>
                  .writeUpstream ::
                    match env.read_upstream with
                    | none => [.timeoutReadUpstream]
                    | some (.error _) => [.errReadUpstream]
                    | some (.ok reply_len) =>
                      .readUpstreamOk reply_len ::
                        match env.write_all_client with
                        | .ok _ => [.writeClient]
                        | .error _ => [.errWriteClient]
  | .ok none => [.errOrigDst]
  | .error _ => [.errOrigDst]

/-- Whether a relay effect touches the upstream or the client: creates or
binds a socket, connects, sends, or writes.  Log-only effects are excluded. -/
def RelayEv.isNetworkEffect : RelayEv → Bool
  | .bindUpstreamSocket => true
  | .sendUpstream => true
  | .recvUpstreamOk _ => true
  | .newReplySocket => true
  | .bindReplySocket _ => true
  | .sendReplyToClient => true
  | .connectUpstream => true
  | .readClientOk _ => true
  | .writeUpstream => true
  | .readUpstreamOk _ => true
  | .writeClient => true
  | _ => false

/-! ### Capability probe (utils/cap_bindings.rs, utils/utils.rs lines 33–42)
and the startup prefix of `main` (main.rs lines 31–150) -/

/-- Model of `__user_cap_data_struct`: three 32-bit bitmaps; only `effective` is
consulted. -/
structure CapUserData where
  effective : Nat
  permitted : Nat
  inheritable : Nat
deriving DecidableEq

/-- Modelled from the spec: the numeric value of `CAP_NET_ADMIN` (12) comes
from the bindgen-generated Linux binding (`linux/capability.h`), which
build.rs produces and which is not under src/. -/
def CAP_NET_ADMIN : Nat := 12

/-- Modelled from the spec: the numeric value of `CAP_NET_BIND_SERVICE` (10)
comes from the bindgen-generated Linux binding (`linux/capability.h`), which
build.rs produces and which is not under src/. -/
def CAP_NET_BIND_SERVICE : Nat := 10

/-- Model of `REQUIRED_CAPS = [CAP_NET_ADMIN, CAP_NET_BIND_SERVICE]`
(utils/constants.rs line 17). -/
def REQUIRED_CAPS : List Nat := [CAP_NET_ADMIN, CAP_NET_BIND_SERVICE]

/-- Model of `cap_to_index` (utils/cap_bindings.rs lines 22–24): `(x >> 5) as usize`. -/
def cap_to_index (x : Nat) : Nat := x >>> 5

/-- Model of `cap_to_mask` (utils/cap_bindings.rs lines 26–29): `1u32 << (x & 31u32)`.
The shift amount is below 32, so the `u32` result never wraps. -/
def cap_to_mask (x : Nat) : Nat := 1 <<< (x &&& 31)

/-- Indexing into the 2-element `[__user_cap_data_struct; 2]` array. -/
def capDataAt (d : CapUserData × CapUserData) (i : Nat) : CapUserData :=
  if i = 0 then d.1 else d.2

/-- Model of `is_capable` (utils/utils.rs lines 33–42): on a successful `capget`
syscall, every required capability must have its bit set in the `effective`
bitmap of the data struct selected by `cap_to_index`, tested with
`cap_to_mask`; a syscall failure propagates as an error. -/
def is_capable (capgetRes : Except Unit (CapUserData × CapUserData)) :
    Except Unit Bool :=
  match capgetRes with
  | .ok d =>
    .ok (REQUIRED_CAPS.all fun cap =>
      ((capDataAt d (cap_to_index cap)).effective &&& cap_to_mask cap) != 0)
  | .error e => .error e

/-- Externally visible effects of `main`'s startup prefix (main.rs lines
31–150), in program order.  Sockets are created only inside the spawned
forwarder workers, so the spawn effects mark the earliest point a socket can
be opened. -/
inductive MainEv where
  | printCapError
  | printCapsNotEffective
  | printArgsError
  | printConfigError
  | printLogError
  | logBannerAndStart
  | logInvalidUpstreamIp
  | spawnUdpForwarder
  | spawnTcpForwarder
  | spawnShutdownHandler
  | notifyReadyMain
deriving DecidableEq

/-- How the startup prefix ends: immediate process failure
(`ExitCode::FAILURE`), or all three workers spawned and the supervisor
waiting on them. -/
inductive StartOutcome where
  | failure
  | runningWorkers
deriving DecidableEq

/-- Startup prefix of `main` (main.rs lines 31–150).  Inputs stand for the
environment: the raw `capget` data for `is_capable`, then the results of
`Args::new`, `read_config`, `enable_logging`, and whether every upstream IP in
the UDP/TCP config arrays parses.  The capability gate runs first: a probe
error or missing capability prints to stderr and returns `ExitCode::FAILURE`
before anything else — in particular before any worker is spawned and hence
before any socket can be opened. -/
def mainStartup (capgetRes : Except Unit (CapUserData × CapUserData))
    (argsRes configRes logRes : Except Unit Unit) (udpIpsOk tcpIpsOk : Bool) :
    StartOutcome × List MainEv :=
  match is_capable capgetRes with
  | .error _ => (.failure, [.printCapError])
  | .ok false => (.failure, [.printCapsNotEffective])
  | .ok true =>
    match argsRes with
    | .error _ => (.failure, [.printArgsError])
    | .ok _ =>
      match configRes with
      | .error _ => (.failure, [.printConfigError])
      | .ok _ =>
        match logRes with
        | .error _ => (.failure, [.printLogError])
        | .ok _ =>
          if !udpIpsOk then (.failure, [.logBannerAndStart, .logInvalidUpstreamIp])
          else if !tcpIpsOk then
            (.failure, [.logBannerAndStart, .logInvalidUpstreamIp])
          else
            (.runningWorkers,
              [.logBannerAndStart, .spawnUdpForwarder, .spawnTcpForwarder,
                .spawnShutdownHandler, .notifyReadyMain])

/-- Whether a startup effect spawns a worker (the only way a socket can come
to be opened). -/
def MainEv.isSpawn : MainEv → Bool
  | .spawnUdpForwarder => true
  | .spawnTcpForwarder => true
  | .spawnShutdownHandler => true
  | _ => false

/-! ### Concrete sample inputs used in witnesses and counterexamples -/

/-- A socket/listener factory that always fails, standing for
`create_udp_socket_fd`/`create_tcp_listener` erroring on rebuild. -/
def createFail : Nat → Except Unit Nat := fun _ => .error ()

/-- Sample UDP forwarder state: empty map, port 10000, listen fd 3. -/
def suSample : UdpFwdState := ⟨[], 10000, 3⟩

/-- Sample TCP forwarder state: empty map, port 10000, listener 4. -/
def stSample : TcpFwdState := ⟨[], 10000, 4⟩

/-- Sample reload config with a changed port (10001) and one UDP mapping. -/
def cSample : FwdConfig := ⟨10001, [(53, (⟨127, 0, 0, 3⟩, 53))], []⟩

/-- Sample reload config with the same port (10000) as the sample states. -/
def cSamePort : FwdConfig := ⟨10000, [(53, (⟨127, 0, 0, 3⟩, 53))], []⟩

/-- Sample original destination for relay witnesses. -/
def origSample : SockAddrV4 := ⟨⟨127, 0, 0, 2⟩, 53⟩

/-- Sample UDP relay environment in which every operation succeeds. -/
def ueSample : UdpRelayEnv :=
  ⟨.ok (), .ok (), some (.ok 5), .ok (), .ok (), .ok (), .ok (), .ok (),
    .ok (), .ok (), .ok ()⟩

/-- Sample TCP relay environment: original destination `origSample`, every
operation succeeds. -/
def teSample : TcpRelayEnv :=
  ⟨.ok (some origSample), some (.ok ()), .ok 10, .ok (), some (.ok 10), .ok ()⟩

/-- Capability data with every bitmap zero: no capability is effective. -/
def dZero : CapUserData × CapUserData := (⟨0, 0, 0⟩, ⟨0, 0, 0⟩)

/-! ## Theorems -/

/-- C2 counterexample: at port 10000 the claim fails — `create_udp_socket_fd`
never enables `SO_REUSEADDR` or `SO_REUSEPORT` on the UDP listen socket (it
only sets `IP_TRANSPARENT`, `IP_RECVORIGDSTADDR` and non-blocking before
binding), so the claimed conjunction of options is false. -/
theorem c2_udp_listen_socket_counterexample :
    ¬((create_udp_socket_fd 10000).reuseAddress = true
      ∧ (create_udp_socket_fd 10000).reusePort = true
      ∧ (create_udp_socket_fd 10000).ipTransparent = true
      ∧ (create_udp_socket_fd 10000).recvOrigDstAddr = true
      ∧ (create_udp_socket_fd 10000).nonblocking = true
      ∧ (create_udp_socket_fd 10000).boundTo = some ⟨LISTEN_IP, 10000⟩) := by
  decide

/-- C2 (amended): for every port `p`, the UDP listen socket created by
`create_udp_socket_fd p` has `IP_TRANSPARENT` and `IP_RECVORIGDSTADDR`
enabled, is non-blocking, and is bound to `127.0.0.2:p`; `SO_REUSEADDR` and
`SO_REUSEPORT` are not set. -/
theorem c2_udp_listen_socket_options (p : Nat) :
    (create_udp_socket_fd p).ipTransparent = true
    ∧ (create_udp_socket_fd p).recvOrigDstAddr = true
    ∧ (create_udp_socket_fd p).nonblocking = true
    ∧ (create_udp_socket_fd p).boundTo = some ⟨LISTEN_IP, p⟩
    ∧ (create_udp_socket_fd p).reuseAddress = false
    ∧ (create_udp_socket_fd p).reusePort = false :=
  ⟨rfl, rfl, rfl, rfl, rfl, rfl⟩

/-- C1 (code bug): with no `KILL` (no abort) and one outstanding relay task
still needing 10 s — more than `DRAIN_DURATION` — the epilogue nevertheless
returns at instant 0 without the forced-exit warning and with the task still
unfinished, because the drain async block contains no await and is ready at
its first poll; moreover the forced-exit warning is unreachable for every
input.  The claim (and the spec) instead say the forwarder waits up to 5 s
for task completion and only then force-exits with a logged warning. -/
theorem c1_drain_returns_immediately :
    drainEpilogue false [10] = ⟨true, false, some 0, [10]⟩
    ∧ ([10].all fun d => decide (d ≤ 0)) = false
    ∧ (∀ fk ts, (drainEpilogue fk ts).warnedForcedExit = false) := by
  refine ⟨by decide, by decide, ?_⟩
  intro fk ts
  cases fk <;> rfl

/-- C6 (code bug): the supervisor join loop of `main` merely logs every worker
result — here the first worker result is an error from the UDP forwarder and
the trace is exactly one error log — and, over every possible result
sequence, it publishes no action at all (it holds no channel sender), so
neither `STOP(label)` on the first worker error nor `PANICKED` on a join
failure is ever emitted. -/
theorem c6_supervisor_only_logs :
    (supervisorJoinLoop [.errRes "UDP forwarder"]
        = [.logWorkerError "UDP forwarder"]
      ∧ supPublishes (supervisorJoinLoop [.errRes "UDP forwarder"]) = [])
    ∧ ∀ results, supPublishes (supervisorJoinLoop results) = [] := by
  refine ⟨⟨rfl, rfl⟩, ?_⟩
  intro results
  induction results with
  | nil => rfl
  | cons r rs ih =>
    cases r <;>
      simpa [supervisorJoinLoop, supPublishes, List.filterMap_cons] using ih

/-- Each admission step of the UDP loop conserves the sum of free permits and
in-flight relay tasks. -/
theorem udpLoopStep_conserves (s : LoopState) (e : LoopEvent) :
    (udpLoopStep s e).permits + (udpLoopStep s e).inFlight
      = s.permits + s.inFlight := by
  cases e with
  | recv r =>
    cases r with
    | none => rfl
    | some x =>
      by_cases h : s.permits = 0
      · simp [udpLoopStep, udpRecvStep, h]
      · simp [udpLoopStep, udpRecvStep, h]
        omega
  | taskDone =>
    by_cases h : s.inFlight = 0
    · simp [udpLoopStep, udpTaskDone, h]
    · simp [udpLoopStep, udpTaskDone, h]
      omega

/-- From startup, the UDP loop state always satisfies
`permits + inFlight = CONN_BACKLOG`. -/
theorem udpLoopRun_conserves (evs : List LoopEvent) :
    (udpLoopRun evs).permits + (udpLoopRun evs).inFlight = CONN_BACKLOG := by
  have key : ∀ (l : List LoopEvent) (s : LoopState),
      (l.foldl udpLoopStep s).permits + (l.foldl udpLoopStep s).inFlight
        = s.permits + s.inFlight := by
    intro l
    induction l with
    | nil => intro s; rfl
    | cons e es ih =>
      intro s
      rw [List.foldl_cons]
      exact (ih (udpLoopStep s e)).trans (udpLoopStep_conserves s e)
  simpa [udpLoopRun, initLoopState] using key evs initLoopState

/-- C3: in every state the UDP admission loop can reach, at most
`CONN_BACKLOG` (100) relay tasks hold a permit (indeed
`permits + inFlight = 100` exactly, each spawned task having taken exactly
one permit); a valid datagram arriving with no permit free is dropped with
the busy warning, leaving the state unchanged and spawning nothing (the
non-blocking `try_acquire_owned` never queues); a datagram arriving with a
permit free spawns a task holding exactly one permit; and a completing relay
task releases exactly its one permit. -/
theorem c3_udp_backlog (evs : List LoopEvent) :
    (udpLoopRun evs).permits + (udpLoopRun evs).inFlight = CONN_BACKLOG
    ∧ (udpLoopRun evs).inFlight ≤ CONN_BACKLOG
    ∧ (∀ r, (udpLoopRun evs).permits = 0 →
        udpRecvStep (udpLoopRun evs) (some r)
          = (udpLoopRun evs, [.busyDroppingPackets], false))
    ∧ (∀ r, (udpLoopRun evs).permits ≠ 0 →
        (udpRecvStep (udpLoopRun evs) (some r)).1.inFlight
            = (udpLoopRun evs).inFlight + 1
          ∧ (udpRecvStep (udpLoopRun evs) (some r)).1.permits + 1
            = (udpLoopRun evs).permits
          ∧ (udpRecvStep (udpLoopRun evs) (some r)).2.2 = true)
    ∧ ((udpLoopRun evs).inFlight ≠ 0 →
        (udpTaskDone (udpLoopRun evs)).permits = (udpLoopRun evs).permits + 1
          ∧ (udpTaskDone (udpLoopRun evs)).inFlight + 1
            = (udpLoopRun evs).inFlight) := by
  have hc := udpLoopRun_conserves evs
  refine ⟨hc, by omega, ?_, ?_, ?_⟩
  · intro r h
    simp [udpRecvStep, h]
  · intro r h
    refine ⟨?_, ?_, ?_⟩
    · simp only [udpRecvStep, if_neg h]
    · simp only [udpRecvStep, if_neg h]
      omega
    · simp only [udpRecvStep, if_neg h]
  · intro h
    refine ⟨?_, ?_⟩
    · simp only [udpTaskDone, if_neg h]
    · simp only [udpTaskDone, if_neg h]
      omega

set_option maxRecDepth 20000 in
/-- C3 witness: after one hundred admitted datagrams the semaphore is
exhausted, and the 101st valid datagram is dropped with the busy warning,
unchanged state, and no spawned task. -/
theorem c3_udp_backlog_witness :
    (udpLoopRun evs100).permits = 0
    ∧ udpRecvStep (udpLoopRun evs100) (some sampleRecv)
        = (udpLoopRun evs100, [.busyDroppingPackets], false) := by
  have h := c3_udp_backlog evs100
  exact ⟨by decide, h.2.2.1 sampleRecv (by decide)⟩

/-- C4 counterexample: a received message whose source address is present but
UNSPECIFIED (`0.0.0.0:40000`) and whose control messages carry a valid
original destination is nevertheless accepted by `recvfrom_cmsg` — it returns
`Some` with no error log (and the loop would go on to spawn a relay task),
whereas the claim requires `None` for an unspecified source.  The helper
never tests the source address against `0.0.0.0`. -/
theorem c4_unspecified_source_accepted :
    c4msg.address = some ⟨⟨0, 0, 0, 0⟩, 40000⟩
    ∧ (recvfrom_cmsg (.ok c4msg)).1
        = some (⟨⟨0, 0, 0, 0⟩, 40000⟩, 7, ⟨⟨127, 0, 0, 2⟩, 53⟩)
    ∧ (recvfrom_cmsg (.ok c4msg)).2 = [] := by
  decide

/-- C4 (amended): for every received UDP message, `recvfrom_cmsg` returns
`Some (source, length, original destination)` — and the loop spawns a relay
task only on a `Some` — iff the message's source address is present and an
IPv4 original-destination control message is present and fits the control
buffer; in every other case for a received message it returns `None` with a
logged error, and on a `recvmsg` error it also returns `None`.  (The check
that the source is specified, i.e. not `0.0.0.0`, does not exist in the
code.) -/
theorem c4_recv_helper (res : Except Nat RecvMsg) :
    (∀ msg, res = .ok msg →
      ((recvfrom_cmsg res).1.isSome = true
          ↔ msg.address.isSome = true ∧ cmsgsHaveOrigDst msg.cmsgs = true)
        ∧ ((recvfrom_cmsg res).1 = none → (recvfrom_cmsg res).2 ≠ []))
    ∧ (∀ e, res = .error e → (recvfrom_cmsg res).1 = none)
    ∧ (∀ s r, (udpRecvStep s r).2.2 = true → r.isSome = true) := by
  refine ⟨?_, ?_, ?_⟩
  · rintro ⟨addr, cm, n⟩ rfl
    cases addr with
    | none =>
      cases cm with
      | ok l =>
        cases hf : findOrigDst l <;>
          simp [recvfrom_cmsg, cmsgsHaveOrigDst, hf]
      | error e => simp [recvfrom_cmsg, cmsgsHaveOrigDst]
    | some a =>
      cases cm with
      | ok l =>
        cases hf : findOrigDst l <;>
          simp [recvfrom_cmsg, cmsgsHaveOrigDst, hf]
      | error e => simp [recvfrom_cmsg, cmsgsHaveOrigDst]
  · rintro e rfl
    simp [recvfrom_cmsg]
  · intro s r h
    cases r with
    | none => simp [udpRecvStep] at h
    | some x => rfl

/-- C4 witness: on the concrete message `c4msg` (source present, valid
original-destination control message) the amended equivalence holds and the
helper indeed returns `Some`. -/
theorem c4_recv_helper_witness :
    ((Except.ok c4msg : Except Nat RecvMsg) = .ok c4msg)
    ∧ ((recvfrom_cmsg (.ok c4msg)).1.isSome = true
        ↔ c4msg.address.isSome = true ∧ cmsgsHaveOrigDst c4msg.cmsgs = true) := by
  have h := c4_recv_helper (.ok c4msg)
  exact ⟨rfl, (h.1 c4msg rfl).1⟩

/-- C5 counterexample: when `NotifyState::monotonic_usec_now()` fails, the
SIGHUP arm aborts with an error log before calling `read_config`, so on this
SIGHUP the configuration file is NOT re-read (the trace contains no read
event), refuting "on every SIGHUP, the signal handler re-reads the
configuration file"; the snapshot is retained and nothing is published. -/
theorem c5_clock_failure_skips_reread :
    ((handleSighup none true true true (.ok cfgSample) curSample).2.1.all
        fun e => e != SigEvent.readConfigFile) = true
    ∧ (handleSighup none true true true (.ok cfgSample) curSample).1 = curSample
    ∧ sigPublishes
        (handleSighup none true true true (.ok cfgSample) curSample).2.1 = [] := by
  decide

/-- C5 (amended): on every SIGHUP on which the monotonic timestamp is
obtained, the signal handler re-reads the configuration file; if the newly
parsed snapshot equals the currently published one it publishes no RELOAD and
leaves the snapshot unchanged; if it differs, it stores the new snapshot into
the shared slot strictly before publishing `RELOAD(port_changed)` with
`port_changed = (old.port != new.port)` (the store event immediately precedes
the publish event in the trace); if reading or parsing fails, the error is
logged and the current snapshot is retained; if obtaining the timestamp
fails, the reload is aborted with a logged error and the snapshot retained;
and the handler never exits on SIGHUP. -/
theorem c5_sighup_reload (m : Nat) (a b c : Bool) (readRes : Except Unit Configs)
    (cur : RuntimeConfigs) :
    (readRes = .error () →
      handleSighup (some m) a b c readRes cur
        = (cur,
            (.notifyReloading m :: warnSeg a)
              ++ [.readConfigFile, .logReadError]
              ++ (.notifyReady :: warnSeg b)
              ++ (.notifyStatus cur.port :: warnSeg c),
            .continueLoop))
    ∧ (∀ fc, readRes = .ok fc →
        (RuntimeConfigs.beq cur (RuntimeConfigs.ofConfigs fc) = true →
          handleSighup (some m) a b c readRes cur
            = (cur,
                (.notifyReloading m :: warnSeg a)
                  ++ [.readConfigFile, .logInfoUnchanged]
                  ++ (.notifyReady :: warnSeg b)
                  ++ (.notifyStatus cur.port :: warnSeg c),
                .continueLoop))
        ∧ (RuntimeConfigs.beq cur (RuntimeConfigs.ofConfigs fc) = false →
          handleSighup (some m) a b c readRes cur
            = (RuntimeConfigs.ofConfigs fc,
                (.notifyReloading m :: warnSeg a)
                  ++ [.readConfigFile,
                      .storeConfig (RuntimeConfigs.ofConfigs fc),
                      .publish (.RELOAD
                        (cur.port != (RuntimeConfigs.ofConfigs fc).port))]
                  ++ (.notifyReady :: warnSeg b)
                  ++ (.notifyStatus (RuntimeConfigs.ofConfigs fc).port
                      :: warnSeg c),
                .continueLoop)))
    ∧ (∀ clockRes,
        (handleSighup clockRes a b c readRes cur).2.2 = .continueLoop) := by
  refine ⟨?_, ?_, ?_⟩
  · rintro rfl
    simp [handleSighup]
  · rintro fc rfl
    constructor
    · intro hbeq
      simp [handleSighup, hbeq]
    · intro hbeq
      simp [handleSighup, hbeq]
  · intro clockRes
    cases clockRes <;> rfl

/-- C5 witness: with the timestamp available and a parse that yields a
snapshot differing from the published one (port 10000 → 10001), the handler
stores the new snapshot and then publishes `RELOAD(true)`, and the arm
continues the loop. -/
theorem c5_sighup_reload_witness :
    RuntimeConfigs.beq curSample (RuntimeConfigs.ofConfigs cfgSample) = false
    ∧ handleSighup (some 7) true true true (.ok cfgSample) curSample
        = (RuntimeConfigs.ofConfigs cfgSample,
            (.notifyReloading 7 :: warnSeg true)
              ++ [.readConfigFile,
                  .storeConfig (RuntimeConfigs.ofConfigs cfgSample),
                  .publish (.RELOAD
                    (curSample.port != (RuntimeConfigs.ofConfigs cfgSample).port))]
              ++ (.notifyReady :: warnSeg true)
              ++ (.notifyStatus (RuntimeConfigs.ofConfigs cfgSample).port
                  :: warnSeg true),
            .continueLoop) := by
  have h := c5_sighup_reload 7 true true true (.ok cfgSample) curSample
  exact ⟨by decide, (h.2.1 cfgSample rfl).2 (by decide)⟩

/-- C7: for both forwarders, when a RELOAD carries a changed port and
rebuilding the listen socket on the new port fails, the error is logged and
the arm continues the loop with the old listen socket and the old cached
port, the shared map having already been replaced with the new one; the
forwarder neither breaks the loop nor returns an error. -/
theorem c7_reload_rebuild_failure (create : Nat → Except Unit Nat)
    (c : FwdConfig) (su : UdpFwdState) (st : TcpFwdState)
    (hu : c.port ≠ su.port) (ht : c.port ≠ st.port)
    (hc : create c.port = .error ()) :
    udpHandleReload create c su
      = ({ su with udpMapShared := c.udpConfig },
          [.logReloadReceived, .createListenSocket c.port, .logCreateError],
          .continueLoop)
    ∧ tcpHandleReload create c st
      = ({ st with tcpMapShared := c.tcpConfig },
          [.logReloadReceived, .createListenSocket c.port, .logCreateError],
          .continueLoop) := by
  constructor
  · simp only [udpHandleReload, if_pos hu, hc]
  · simp only [tcpHandleReload, if_pos ht, hc]

/-- C7 witness: with the always-failing factory and a reload from port 10000
to 10001, both forwarders keep their old socket identity and port 10000 while
carrying the new maps, and both continue their loops. -/
theorem c7_reload_rebuild_failure_witness :
    (cSample.port ≠ suSample.port ∧ cSample.port ≠ stSample.port
      ∧ createFail cSample.port = .error ())
    ∧ udpHandleReload createFail cSample suSample
        = ({ suSample with udpMapShared := cSample.udpConfig },
            [.logReloadReceived, .createListenSocket cSample.port,
              .logCreateError],
            .continueLoop)
    ∧ tcpHandleReload createFail cSample stSample
        = ({ stSample with tcpMapShared := cSample.tcpConfig },
            [.logReloadReceived, .createListenSocket cSample.port,
              .logCreateError],
            .continueLoop) := by
  have h := c7_reload_rebuild_failure createFail cSample suSample stSample
    (by decide) (by decide) rfl
  exact ⟨⟨by decide, by decide, rfl⟩, h.1, h.2⟩

/-- C10: for both forwarders, a RELOAD whose config carries the same listen
port as the current one only replaces the shared map — the listen socket
identity and the cached port are unchanged, the create function is never
invoked (no create event in the trace), and the loop continues. -/
theorem c10_reload_same_port (create : Nat → Except Unit Nat) (c : FwdConfig)
    (su : UdpFwdState) (st : TcpFwdState)
    (hu : c.port = su.port) (ht : c.port = st.port) :
    udpHandleReload create c su
      = ({ su with udpMapShared := c.udpConfig },
          [.logReloadReceived], .continueLoop)
    ∧ tcpHandleReload create c st
      = ({ st with tcpMapShared := c.tcpConfig },
          [.logReloadReceived], .continueLoop)
    ∧ ((udpHandleReload create c su).2.1.all fun e =>
        match e with
        | .createListenSocket _ => false
        | _ => true) = true
    ∧ ((tcpHandleReload create c st).2.1.all fun e =>
        match e with
        | .createListenSocket _ => false
        | _ => true) = true := by
  have h1 : udpHandleReload create c su
      = ({ su with udpMapShared := c.udpConfig },
          [.logReloadReceived], .continueLoop) := by
    simp only [udpHandleReload, if_neg (not_not_intro hu)]
  have h2 : tcpHandleReload create c st
      = ({ st with tcpMapShared := c.tcpConfig },
          [.logReloadReceived], .continueLoop) := by
    simp only [tcpHandleReload, if_neg (not_not_intro ht)]
  refine ⟨h1, h2, ?_, ?_⟩
  · rw [h1]; rfl
  · rw [h2]; rfl

/-- C10 witness: a same-port (10000) reload against both sample states
replaces only the maps and creates no socket. -/
theorem c10_reload_same_port_witness :
    (cSamePort.port = suSample.port ∧ cSamePort.port = stSample.port)
    ∧ udpHandleReload createFail cSamePort suSample
        = ({ suSample with udpMapShared := cSamePort.udpConfig },
            [.logReloadReceived], .continueLoop)
    ∧ tcpHandleReload createFail cSamePort stSample
        = ({ stSample with tcpMapShared := cSamePort.tcpConfig },
            [.logReloadReceived], .continueLoop) := by
  have h := c10_reload_same_port createFail cSamePort suSample stSample
    (by decide) (by decide)
  exact ⟨⟨by decide, by decide⟩, h.1, h.2.1⟩

/-- C8: for every datagram or connection whose original destination port is
not a key in the relevant forwarder map, the relay task's trace is exactly
the intercept log followed by the no-mapping warning — so it returns without
creating any upstream socket, opening any upstream connection, or sending or
writing anything to the client (no network effect appears in the trace). -/
theorem c8_unmapped_port_dropped (udpMap tcpMap : FwdMap) (orig : SockAddrV4)
    (ue : UdpRelayEnv) (te : TcpRelayEnv)
    (hu : mapLookup udpMap orig.port = none)
    (ht : mapLookup tcpMap orig.port = none)
    (hod : te.origDst = .ok (some orig)) :
    udp_relay udpMap orig ue = [.logIntercept, .warnNoUdpMapping orig.port]
    ∧ tcp_relay tcpMap te = [.logIntercept, .warnNoTcpMapping orig.port]
    ∧ ((udp_relay udpMap orig ue).all fun e => !e.isNetworkEffect) = true
    ∧ ((tcp_relay tcpMap te).all fun e => !e.isNetworkEffect) = true := by
  have h1 : udp_relay udpMap orig ue
      = [.logIntercept, .warnNoUdpMapping orig.port] := by
    simp only [udp_relay, hu]
  have h2 : tcp_relay tcpMap te
      = [.logIntercept, .warnNoTcpMapping orig.port] := by
    simp only [tcp_relay, hod, ht]
  refine ⟨h1, h2, ?_, ?_⟩
  · rw [h1]; rfl
  · rw [h2]; rfl

/-- C8 witness: with empty maps and original destination port 53, both relay
tasks log the warning and perform no network effect. -/
theorem c8_unmapped_port_dropped_witness :
    (mapLookup [] origSample.port = none
      ∧ teSample.origDst = .ok (some origSample))
    ∧ udp_relay [] origSample ueSample
        = [.logIntercept, .warnNoUdpMapping origSample.port]
    ∧ tcp_relay [] teSample
        = [.logIntercept, .warnNoTcpMapping origSample.port] := by
  have h := c8_unmapped_port_dropped [] [] origSample ueSample teSample
    rfl rfl rfl
  exact ⟨⟨rfl, rfl⟩, h.1, h.2.1⟩

/-- A bitwise-and with the mask `1 <<< i` is nonzero exactly when bit `i` is
set. -/
theorem and_mask_ne_zero (n i : Nat) :
    ((n &&& (1 <<< i)) != 0) = n.testBit i := by
  rw [Nat.shiftLeft_eq, one_mul, Nat.and_two_pow]
  cases h : n.testBit i <;> simp [h]

/-- C9: `is_capable` on a successful `capget` returns true iff both the
`CAP_NET_ADMIN` bit and the `CAP_NET_BIND_SERVICE` bit are set in the
effective bitmaps (both capabilities index data struct `c >>> 5 = 0` and are
tested with mask `1 <<< (c &&& 31)`); and when the probe errs or returns
false, `main` returns a failure exit with a trace that contains no worker
spawn — hence before any socket can be opened. -/
theorem c9_capability_gate (d : CapUserData × CapUserData)
    (capgetRes : Except Unit (CapUserData × CapUserData))
    (argsRes configRes logRes : Except Unit Unit) (u t : Bool) :
    (is_capable (.ok d)
      = .ok (d.1.effective.testBit CAP_NET_ADMIN
          && d.1.effective.testBit CAP_NET_BIND_SERVICE))
    ∧ (capgetRes = .error () →
        mainStartup capgetRes argsRes configRes logRes u t
            = (.failure, [.printCapError])
          ∧ (([MainEv.printCapError].all fun ev => !ev.isSpawn) = true))
    ∧ (is_capable capgetRes = .ok false →
        mainStartup capgetRes argsRes configRes logRes u t
            = (.failure, [.printCapsNotEffective])
          ∧ (([MainEv.printCapsNotEffective].all fun ev => !ev.isSpawn) = true)) := by
  refine ⟨?_, ?_, ?_⟩
  · have h12 : ((capDataAt d (cap_to_index CAP_NET_ADMIN)).effective
        &&& cap_to_mask CAP_NET_ADMIN != 0)
        = d.1.effective.testBit CAP_NET_ADMIN := by
      have hm : cap_to_mask CAP_NET_ADMIN = 1 <<< CAP_NET_ADMIN := by decide
      rw [show capDataAt d (cap_to_index CAP_NET_ADMIN) = d.1 from rfl, hm,
        and_mask_ne_zero]
    have h10 : ((capDataAt d (cap_to_index CAP_NET_BIND_SERVICE)).effective
        &&& cap_to_mask CAP_NET_BIND_SERVICE != 0)
        = d.1.effective.testBit CAP_NET_BIND_SERVICE := by
      have hm : cap_to_mask CAP_NET_BIND_SERVICE = 1 <<< CAP_NET_BIND_SERVICE := by
        decide
      rw [show capDataAt d (cap_to_index CAP_NET_BIND_SERVICE) = d.1 from rfl,
        hm, and_mask_ne_zero]
    simp only [is_capable, REQUIRED_CAPS, List.all_cons, List.all_nil,
      Bool.and_true, h12, h10]
  · rintro rfl
    exact ⟨rfl, rfl⟩
  · intro h
    constructor
    · unfold mainStartup
      rw [h]
    · rfl

/-- C9 witness: with all-zero capability bitmaps the probe reports the
missing capabilities and `main` fails before spawning any worker. -/
theorem c9_capability_gate_witness :
    is_capable (.ok dZero) = .ok false
    ∧ mainStartup (.ok dZero) (.ok ()) (.ok ()) (.ok ()) true true
        = (.failure, [.printCapsNotEffective]) := by
  have h := c9_capability_gate dZero (.ok dZero) (.ok ()) (.ok ()) (.ok ())
    true true
  exact ⟨rfl, (h.2.2 rfl).1⟩

end Krustacean
